import Mathlib

/-!
Verification of the cluster-image-registry-operator reconciliation engine.

This development gives a shallow embedding, in Lean 4, of the parts of the
operator that the specification talks about: the condition bookkeeping on the
Config status, the deployment generator with its exactly-one-storage-backend
check, the storage sync and teardown loops, the checksum-based apply step,
route garbage collection, and the event handler.  Each Go function is
translated into an executable Lean definition; effects performed through the
cluster API (Get/Create/Update/Delete calls) are made explicit as values,
parameters, or returned action lists.
-/

/-- Condition status values (operatorapi.ConditionStatus). -/
inductive ConditionStatus where
  | condTrue
  | condFalse
  | condUnknown
deriving DecidableEq, Repr

/-- operatorapi.OperatorCondition: a typed condition on the Config status.
`lastTransitionTime` is modelled as a natural-number timestamp. -/
structure OperatorCondition where
  type : String
  status : ConditionStatus
  lastTransitionTime : Nat
  reason : String
  message : String
deriving DecidableEq, Repr

/-- The loop body of `updateCondition` (handler part, lines 156-166): walk the
stored condition list; conditions of a different type are kept, every
condition of the written type is replaced by the new condition, the
`modified` flag is raised when a replaced condition had a different status,
and the `found` flag records whether the type was present.
Returns (new list, modified, found). -/
def updateConditionLoop (c : OperatorCondition) :
    List OperatorCondition → List OperatorCondition × Bool × Bool
  | [] => ([], false, false)
  | x :: rest =>
    let r := updateConditionLoop c rest
    if c.type ≠ x.type then
      (x :: r.1, r.2.1, r.2.2)
    else
      (c :: r.1, (decide (c.status ≠ x.status) || r.2.1), true)

/-- `updateCondition` (handler part, lines 151-175): replace-on-type write of
a condition into the status condition list.  If the type was absent the
condition is appended and the write counts as a modification. -/
def updateCondition (conds : List OperatorCondition) (c : OperatorCondition) :
    List OperatorCondition × Bool :=
  let r := updateConditionLoop c conds
  if r.2.2 then (r.1, r.2.1) else (r.1 ++ [c], true)

/-- `conditionResourceApply` (handler part, lines 177-193): write the
Available condition with reason "ResourceApplied" and a fresh timestamp
(`metav1.Now()`, modelled by the `now` argument); the caller's `modified`
flag is raised when the write reported a change. -/
def conditionResourceApply (conds : List OperatorCondition)
    (status : ConditionStatus) (m : String) (now : Nat) (modifiedIn : Bool) :
    List OperatorCondition × Bool :=
  let r := updateCondition conds
    ⟨"Available", status, now, "ResourceApplied", m⟩
  (r.1, modifiedIn || r.2)

/-- Characterisation of the loop when every stored condition of the written
type already has the written status: every such condition is replaced by the
new condition (new timestamp included) and `modified` stays false. -/
theorem updateConditionLoop_same_status (c : OperatorCondition) :
    ∀ conds : List OperatorCondition,
      (∀ x ∈ conds, x.type = c.type → x.status = c.status) →
      updateConditionLoop c conds
        = (conds.map (fun x => if x.type = c.type then c else x), false,
           conds.any (fun x => x.type == c.type)) := by
  intro conds
  induction conds with
  | nil => intro _; rfl
  | cons x rest ih =>
    intro h
    have hx := h x (by simp)
    have hrest : ∀ y ∈ rest, y.type = c.type → y.status = c.status := by
      intro y hy; exact h y (by simp [hy])
    by_cases htype : x.type = c.type
    · have hstat : x.status = c.status := hx htype
      simp [updateConditionLoop, ih hrest, htype, hstat]
    · have htype' : ¬ c.type = x.type := fun hh => htype hh.symm
      simp [updateConditionLoop, ih hrest, htype, htype']

/-- Claim C1 (amended): writing a condition whose status equals the stored
status for that type reports no net change (`modified = false`), but the
stored condition is still replaced wholesale by the new condition, so its
`lastTransitionTime` is overwritten with the write time rather than left
unchanged; `modified` is raised only when the status value differs or the
type is new. -/
theorem updateCondition_same_status_replaces (conds : List OperatorCondition)
    (c : OperatorCondition)
    (hfound : ∃ x ∈ conds, x.type = c.type)
    (hsame : ∀ x ∈ conds, x.type = c.type → x.status = c.status) :
    updateCondition conds c
      = (conds.map (fun x => if x.type = c.type then c else x), false) := by
  have hloop := updateConditionLoop_same_status c conds hsame
  have hany : conds.any (fun x => x.type == c.type) = true := by
    rcases hfound with ⟨x, hx, htype⟩
    exact List.any_eq_true.mpr ⟨x, hx, by simp [htype]⟩
  simp [updateCondition, hloop, hany]

/-- Witness for the amended claim C1 at a concrete input: re-asserting
Available=True over a stored Available=True condition reports no change,
while the stored entry becomes the newly written condition. -/
theorem updateCondition_same_status_replaces_witness :
    updateCondition
        [⟨"Available", ConditionStatus.condTrue, 5, "ResourceApplied", "ok"⟩]
        ⟨"Available", ConditionStatus.condTrue, 10, "ResourceApplied", "ok"⟩
      = ([⟨"Available", ConditionStatus.condTrue, 10, "ResourceApplied", "ok"⟩],
         false) := by
  have h := updateCondition_same_status_replaces
    [⟨"Available", ConditionStatus.condTrue, 5, "ResourceApplied", "ok"⟩]
    ⟨"Available", ConditionStatus.condTrue, 10, "ResourceApplied", "ok"⟩
    (by simp) (by simp)
  simpa using h

/-- Counterexample to claim C1 as stated: the stored Available condition has
status True and timestamp 5; re-asserting True at time 10 leaves the status
value unchanged, yet the stored `lastTransitionTime` becomes 10 instead of
staying 5 (the condition is replaced wholesale; only the reported change
flag stays false). -/
theorem conditionResourceApply_bumps_time_counterexample :
    conditionResourceApply
        [⟨"Available", ConditionStatus.condTrue, 5, "ResourceApplied", "ok"⟩]
        ConditionStatus.condTrue "ok" 10 false
      = ([⟨"Available", ConditionStatus.condTrue, 10, "ResourceApplied", "ok"⟩],
         false)
    ∧ (conditionResourceApply
        [⟨"Available", ConditionStatus.condTrue, 5, "ResourceApplied", "ok"⟩]
        ConditionStatus.condTrue "ok" 10 false).1
      ≠ [⟨"Available", ConditionStatus.condTrue, 5, "ResourceApplied", "ok"⟩] := by
  constructor
  · decide
  · decide

/-- kappsapi Deployment spec: `Replicas *int32` (nil means a default of 1). -/
structure DeploymentSpec where
  replicas : Option Int
deriving DecidableEq, Repr

/-- kappsapi Deployment status counters. -/
structure DeploymentStatus where
  updatedReplicas : Int
  replicas : Int
  availableReplicas : Int
  observedGeneration : Int
deriving DecidableEq, Repr

/-- kappsapi Deployment, restricted to the fields the handler reads. -/
structure Deployment where
  generation : Int
  spec : DeploymentSpec
  status : DeploymentStatus
deriving DecidableEq, Repr

/-- openshift DeploymentConfig, restricted to the fields the handler reads
(`Spec.Replicas` is a plain int32 here). -/
structure DeploymentConfig where
  generation : Int
  specReplicas : Int
  status : DeploymentStatus
deriving DecidableEq, Repr

/-- `isDeploymentStatusComplete` (handler part, lines 102-110), Deployment
branch: updated, total and available replica counts must equal the spec
replica target (defaulting to 1 when nil) and the observed generation must
be at least the current generation. -/
def isDeploymentStatusComplete (d : Deployment) : Bool :=
  let replicas := d.spec.replicas.getD 1
  decide (d.status.updatedReplicas = replicas)
    && decide (d.status.replicas = replicas)
    && decide (d.status.availableReplicas = replicas)
    && decide (d.status.observedGeneration ≥ d.generation)

/-- `isDeploymentStatusComplete` (handler part, lines 97-101),
DeploymentConfig branch. -/
def isDeploymentConfigStatusComplete (d : DeploymentConfig) : Bool :=
  decide (d.status.updatedReplicas = d.specReplicas)
    && decide (d.status.replicas = d.specReplicas)
    && decide (d.status.availableReplicas = d.specReplicas)
    && decide (d.status.observedGeneration ≥ d.generation)

/-- `syncDeploymentStatus` (handler part, lines 129-135): the Progressing
condition starts as True ("deployment is progressing") and is set to False
("deployment successfully progressed") exactly when the deployment status is
complete. -/
def progressingCondition (d : Deployment) : ConditionStatus :=
  if isDeploymentStatusComplete d then ConditionStatus.condFalse
  else ConditionStatus.condTrue

/-- Same derivation for the DeploymentConfig branch. -/
def progressingConditionDC (d : DeploymentConfig) : ConditionStatus :=
  if isDeploymentConfigStatusComplete d then ConditionStatus.condFalse
  else ConditionStatus.condTrue

/-- The spec's wording of the Progressing predicate ("all four observed
values match", with observedGeneration EQUAL to the generation), stated
verbatim for comparison with the code's predicate. -/
def specAllFourMatch (d : Deployment) : Bool :=
  let replicas := d.spec.replicas.getD 1
  decide (d.status.updatedReplicas = replicas)
    && decide (d.status.replicas = replicas)
    && decide (d.status.availableReplicas = replicas)
    && decide (d.status.observedGeneration = d.generation)

/-- Claim C5 (amended): Progressing is False iff the three replica counters
equal the spec replica target and the observed generation is AT LEAST the
current generation (the code compares `observedGeneration >= generation`,
not equality); in particular available=2 against a target of 3 yields
Progressing True.  Both the Deployment and the DeploymentConfig branches
are covered. -/
theorem progressingCondition_false_iff (d : Deployment) (dc : DeploymentConfig) :
    (progressingCondition d = ConditionStatus.condFalse ↔
      (d.status.updatedReplicas = d.spec.replicas.getD 1
        ∧ d.status.replicas = d.spec.replicas.getD 1
        ∧ d.status.availableReplicas = d.spec.replicas.getD 1
        ∧ d.status.observedGeneration ≥ d.generation))
    ∧ (progressingConditionDC dc = ConditionStatus.condFalse ↔
      (dc.status.updatedReplicas = dc.specReplicas
        ∧ dc.status.replicas = dc.specReplicas
        ∧ dc.status.availableReplicas = dc.specReplicas
        ∧ dc.status.observedGeneration ≥ dc.generation)) := by
  constructor
  · unfold progressingCondition isDeploymentStatusComplete
    by_cases h1 : d.status.updatedReplicas = d.spec.replicas.getD 1 <;>
      by_cases h2 : d.status.replicas = d.spec.replicas.getD 1 <;>
      by_cases h3 : d.status.availableReplicas = d.spec.replicas.getD 1 <;>
      by_cases h4 : d.status.observedGeneration ≥ d.generation <;>
      simp [h1, h2, h3, h4]
  · unfold progressingConditionDC isDeploymentConfigStatusComplete
    by_cases h1 : dc.status.updatedReplicas = dc.specReplicas <;>
      by_cases h2 : dc.status.replicas = dc.specReplicas <;>
      by_cases h3 : dc.status.availableReplicas = dc.specReplicas <;>
      by_cases h4 : dc.status.observedGeneration ≥ dc.generation <;>
      simp [h1, h2, h3, h4]

/-- Counterexample to claim C5 as stated: with spec replicas 1, all three
replica counters 1, generation 0 but observedGeneration 1, the code reports
Progressing False even though observedGeneration does not EQUAL the current
generation, refuting the "if and only if all four observed values match"
reading; the spec-worded predicate is false at this deployment.  The claim's
own example (replicas 3, available 2) does yield Progressing True. -/
theorem progressingCondition_counterexample :
    progressingCondition ⟨0, ⟨some 1⟩, ⟨1, 1, 1, 1⟩⟩ = ConditionStatus.condFalse
    ∧ specAllFourMatch ⟨0, ⟨some 1⟩, ⟨1, 1, 1, 1⟩⟩ = false
    ∧ progressingCondition ⟨7, ⟨some 3⟩, ⟨3, 3, 2, 7⟩⟩ = ConditionStatus.condTrue := by
  refine ⟨by decide, by decide, by decide⟩

/-- The result of one driver call pair during `syncStorage`: whether
`StorageChanged` reported a change, what `StorageExists` would return, and
what `CreateStorage` would return (`none` = success).  The driver itself is
built per backend outside this repository slice, so its three lifecycle
calls are modelled as recorded outcomes. -/
structure StorageDriverState where
  storageChangedR : Bool
  storageExistsR : Except String Bool
  createStorageR : Option String
deriving Repr

/-- `Generator.syncStorage` (generator.go, lines 110-136): decide whether to
(re)create storage and run `CreateStorage` when required.  Returns the
function result together with a flag recording whether `CreateStorage` was
invoked. -/
def syncStorage (d : StorageDriverState) : Except String Unit × Bool :=
  if d.storageChangedR then
    match d.createStorageR with
    | some e => (Except.error e, true)
    | none => (Except.ok (), true)
  else
    match d.storageExistsR with
    | Except.error e => (Except.error e, false)
    | Except.ok true => (Except.ok (), false)
    | Except.ok false =>
      match d.createStorageR with
      | some e => (Except.error e, true)
      | none => (Except.ok (), true)

/-- Claim C7: `CreateStorage` is invoked iff `StorageChanged` is true or
`StorageChanged` is false and `StorageExists` reports false; an error from
`StorageExists` (with no change reported) is returned without invoking
`CreateStorage`; when neither trigger fires, `syncStorage` returns success
with no `CreateStorage` call. -/
theorem syncStorage_create_iff (d : StorageDriverState) :
    ((syncStorage d).2 = true ↔
      (d.storageChangedR = true
        ∨ (d.storageChangedR = false ∧ d.storageExistsR = Except.ok false)))
    ∧ (∀ e, d.storageChangedR = false → d.storageExistsR = Except.error e →
        syncStorage d = (Except.error e, false))
    ∧ (d.storageChangedR = false → d.storageExistsR = Except.ok true →
        syncStorage d = (Except.ok (), false)) := by
  refine ⟨?_, ?_, ?_⟩
  · cases hch : d.storageChangedR
    · cases hex : d.storageExistsR with
      | error e => simp [syncStorage, hch, hex]
      | ok b =>
        cases b
        · cases hcr : d.createStorageR <;> simp [syncStorage, hch, hex, hcr]
        · simp [syncStorage, hch, hex]
    · cases hcr : d.createStorageR <;> simp [syncStorage, hch, hcr]
  · intro e hch hex
    simp [syncStorage, hch, hex]
  · intro hch hex
    simp [syncStorage, hch, hex]

/-- Witness for claim C7 at concrete drivers: an unreachable backend with no
config change surfaces the `StorageExists` error without creating storage;
an unchanged, existing backend produces no call and no error. -/
theorem syncStorage_create_iff_witness :
    syncStorage ⟨false, Except.error "timeout", none⟩
        = (Except.error "timeout", false)
    ∧ syncStorage ⟨false, Except.ok true, none⟩ = (Except.ok (), false) := by
  exact ⟨(syncStorage_create_iff ⟨false, Except.error "timeout", none⟩).2.1
      "timeout" rfl rfl,
    (syncStorage_create_iff ⟨false, Except.ok true, none⟩).2.2 rfl rfl⟩

/-- One outcome of `driver.RemoveStorage(cr)`: success, an error flagged
retriable, or an error flagged non-retriable. -/
inductive RemoveStorageResult where
  | ok
  | retriable (e : String)
  | fatal (e : String)
deriving DecidableEq, Repr

/-- Whether a `RemoveStorage` outcome is a retriable error. -/
def RemoveStorageResult.isRetriable : RemoveStorageResult → Bool
  | RemoveStorageResult.retriable _ => true
  | _ => false

/-- The poll interval passed to `wait.PollImmediate` in `Generator.Remove`
(generator.go line 275): 1 second. -/
def pollIntervalSeconds : Nat := 1

/-- The overall timeout ceiling passed to `wait.PollImmediate` (generator.go
line 275): 5 minutes = 300 seconds. -/
def pollTimeoutSeconds : Nat := 300

/-- The number of `RemoveStorage` attempts the poll makes before the timeout
ceiling elapses: the immediate first call plus one call per elapsed
interval. -/
def maxAttempts : Nat := pollTimeoutSeconds / pollIntervalSeconds + 1

/-- How `Generator.Remove` finishes its storage teardown: success, the
non-retriable error surfaced on the attempt that produced it, or a timeout
failure that also carries the last retriable error seen. -/
inductive RemoveOutcome where
  | ok
  | fatal (e : String)
  | timeout (lastErr : Option String)
deriving DecidableEq, Repr

/-- The polling recursion inside `Generator.Remove` (generator.go, lines
273-284): attempt `i` calls `RemoveStorage` (whose outcome is `f i`); a
retriable error continues polling after the fixed interval, any other
outcome stops.  `fuel` is the number of attempts left before the timeout
ceiling; `last` is the last retriable error seen.  Returns the outcome and
the number of `RemoveStorage` calls made. -/
def removeStoragePollAux (f : Nat → RemoveStorageResult) :
    Nat → Nat → Option String → RemoveOutcome × Nat
  | _, 0, last => (RemoveOutcome.timeout last, 0)
  | i, fuel + 1, _last =>
    match f i with
    | RemoveStorageResult.ok => (RemoveOutcome.ok, 1)
    | RemoveStorageResult.fatal e => (RemoveOutcome.fatal e, 1)
    | RemoveStorageResult.retriable e =>
      let r := removeStoragePollAux f (i + 1) fuel (some e)
      (r.1, r.2 + 1)

/-- The storage teardown step of `Generator.Remove`: run the poll loop from
the immediate first attempt with the full attempt budget. -/
def removeStorageLoop (f : Nat → RemoveStorageResult) : RemoveOutcome × Nat :=
  removeStoragePollAux f 0 maxAttempts none

/-- Helper: a non-retriable error on the first attempt of a poll stops it
after exactly that one call. -/
theorem removeStoragePollAux_fatal_first (f : Nat → RemoveStorageResult)
    (i fuel : Nat) (last : Option String) (e : String)
    (h : f i = RemoveStorageResult.fatal e) :
    removeStoragePollAux f i (fuel + 1) last = (RemoveOutcome.fatal e, 1) := by
  simp [removeStoragePollAux, h]

/-- Helper: if every attempt a poll can make is a retriable error, the poll
exhausts its budget and times out, having made exactly `fuel` calls. -/
theorem removeStoragePollAux_all_retriable (f : Nat → RemoveStorageResult) :
    ∀ fuel i last, (∀ k, k < fuel → (f (i + k)).isRetriable = true) →
      ∃ last', removeStoragePollAux f i fuel last
        = (RemoveOutcome.timeout last', fuel) := by
  intro fuel
  induction fuel with
  | zero => intro i last _; exact ⟨last, rfl⟩
  | succ n ih =>
    intro i last h
    have h0 : (f i).isRetriable = true := by simpa using h 0 (Nat.succ_pos n)
    match hf : f i with
    | RemoveStorageResult.ok => rw [hf] at h0; simp [RemoveStorageResult.isRetriable] at h0
    | RemoveStorageResult.fatal e => rw [hf] at h0; simp [RemoveStorageResult.isRetriable] at h0
    | RemoveStorageResult.retriable e =>
      have hrest : ∀ k, k < n → (f (i + 1 + k)).isRetriable = true := by
        intro k hk
        have := h (k + 1) (Nat.succ_lt_succ hk)
        simpa [Nat.add_assoc, Nat.add_comm 1 k] using this
      rcases ih (i + 1) (some e) hrest with ⟨last', hlast⟩
      exact ⟨last', by simp [removeStoragePollAux, hf, hlast]⟩

/-- Helper: if the first `j` attempts are retriable errors and attempt `j`
is not, the poll makes exactly `j + 1` calls. -/
theorem removeStoragePollAux_first_stop (f : Nat → RemoveStorageResult) :
    ∀ j fuel i last, j < fuel →
      (∀ k, k < j → (f (i + k)).isRetriable = true) →
      (f (i + j)).isRetriable = false →
      (removeStoragePollAux f i fuel last).2 = j + 1 := by
  intro j
  induction j with
  | zero =>
    intro fuel i last hlt _ hstop
    match fuel, hlt with
    | fuel + 1, _ =>
      simp only [Nat.add_zero] at hstop
      match hf : f i with
      | RemoveStorageResult.ok => simp [removeStoragePollAux, hf]
      | RemoveStorageResult.fatal e => simp [removeStoragePollAux, hf]
      | RemoveStorageResult.retriable e =>
        rw [hf] at hstop; simp [RemoveStorageResult.isRetriable] at hstop
  | succ n ih =>
    intro fuel i last hlt hpre hstop
    match fuel, hlt with
    | fuel + 1, hlt =>
      have h0 : (f i).isRetriable = true := by simpa using hpre 0 (Nat.succ_pos n)
      match hf : f i with
      | RemoveStorageResult.ok => rw [hf] at h0; simp [RemoveStorageResult.isRetriable] at h0
      | RemoveStorageResult.fatal e => rw [hf] at h0; simp [RemoveStorageResult.isRetriable] at h0
      | RemoveStorageResult.retriable e =>
        have hpre' : ∀ k, k < n → (f (i + 1 + k)).isRetriable = true := by
          intro k hk
          have := hpre (k + 1) (Nat.succ_lt_succ hk)
          simpa [Nat.add_assoc, Nat.add_comm 1 k] using this
        have hstop' : (f (i + 1 + n)).isRetriable = false := by
          have : i + 1 + n = i + (n + 1) := by omega
          rw [this]; exact hstop
        have := ih fuel (i + 1) (some e) (Nat.lt_of_succ_lt_succ hlt) hpre' hstop'
        simp [removeStoragePollAux, hf, this]

/-- Claim C3: the teardown poll runs at a 1-second interval under a
300-second (5-minute) ceiling; a non-retriable error on the first call stops
the loop after exactly one `RemoveStorage` call and surfaces that error;
retriable errors on every attempt make the loop exhaust its attempt budget
and report a timeout failure instead of blocking; and in general the loop
keeps calling `RemoveStorage` exactly while results are retriable, stopping
on the first attempt that is not. -/
theorem removeStorageLoop_spec (f : Nat → RemoveStorageResult) :
    pollIntervalSeconds = 1 ∧ pollTimeoutSeconds = 300
    ∧ (∀ e, f 0 = RemoveStorageResult.fatal e →
        removeStorageLoop f = (RemoveOutcome.fatal e, 1))
    ∧ ((∀ k, k < maxAttempts → (f k).isRetriable = true) →
        ∃ last, removeStorageLoop f = (RemoveOutcome.timeout last, maxAttempts))
    ∧ (∀ j, j < maxAttempts →
        (∀ k, k < j → (f k).isRetriable = true) →
        (f j).isRetriable = false →
        (removeStorageLoop f).2 = j + 1) := by
  refine ⟨rfl, rfl, ?_, ?_, ?_⟩
  · intro e he
    have : maxAttempts = 300 + 1 := by rfl
    rw [removeStorageLoop, this]
    exact removeStoragePollAux_fatal_first f 0 300 none e he
  · intro h
    have h' : ∀ k, k < maxAttempts → (f (0 + k)).isRetriable = true := by
      intro k hk; simpa using h k hk
    rcases removeStoragePollAux_all_retriable f maxAttempts 0 none h' with ⟨last, hl⟩
    exact ⟨last, hl⟩
  · intro j hj hpre hstop
    have hpre' : ∀ k, k < j → (f (0 + k)).isRetriable = true := by
      intro k hk; simpa using hpre k hk
    have hstop' : (f (0 + j)).isRetriable = false := by simpa using hstop
    exact removeStoragePollAux_first_stop f j maxAttempts 0 none hj hpre' hstop'

/-- Witness for claim C3 at a concrete input: a `RemoveStorage` that fails
non-retriably ("permission denied") on the first call makes the teardown
stop after exactly one call with that error. -/
theorem removeStorageLoop_spec_witness :
    removeStorageLoop (fun _ => RemoveStorageResult.fatal "permission denied")
      = (RemoveOutcome.fatal "permission denied", 1) :=
  (removeStorageLoop_spec
    (fun _ => RemoveStorageResult.fatal "permission denied")).2.2.1
    "permission denied" rfl

/-- The checksum annotation key (`checksumOperatorAnnotation`,
generate.go line 25). -/
def checksumOperatorKey : String := "dockerregistry.operator.openshift.io/checksum"

/-- The storage-type annotation key (`storageTypeOperatorAnnotation`,
generate.go line 26). -/
def storageTypeOperatorKey : String := "dockerregistry.operator.openshift.io/storagetype"

/-- A managed cluster object, restricted to what `ApplyTemplate` touches:
its annotation map (modelled as an association list with unique keys) and
the remaining content, opaque to the apply step. -/
structure KObj where
  annots : List (String × String)
  payload : String
deriving DecidableEq, Repr

/-- Map-style annotation write: `obj.Annotations[k] = v`. -/
def setAnnot (o : KObj) (k v : String) : KObj :=
  { o with annots := (k, v) :: o.annots.filter (fun kv => kv.1 ≠ k) }

/-- The action the apply step performed against the cluster. -/
inductive ApplyAction where
  | created
  | updatedObj
  | skipped
deriving DecidableEq, Repr

/-- One pass of `ApplyTemplate` (apply.go, lines 52-101) for a mutator whose
desired object is `desired`, against a store holding `store` (the `sdk.Get`
result; `none` models a not-found).  `hash` is the content checksum of
apply.go lines 19-25 and `strategyApply` the mutator's merge strategy
(`tmpl.Strategy.Apply`), both abstract here.  Returns the action taken and
the object the store holds afterwards: a missing object is created from the
desired template as-is; a current object whose checksum annotation equals
the desired object's checksum is left untouched with no Update call;
otherwise the merge result is written back with the checksum annotation
set. -/
def applyTemplateStep (hash : KObj → String)
    (strategyApply : KObj → KObj → KObj)
    (desired : KObj) (store : Option KObj) : ApplyAction × KObj :=
  match store with
  | none => (ApplyAction.created, desired)
  | some current =>
    if current.annots.lookup checksumOperatorKey = some (hash desired) then
      (ApplyAction.skipped, current)
    else
      let u := strategyApply current desired
      (ApplyAction.updatedObj, setAnnot u checksumOperatorKey (hash desired))

/-- Claim C4 (amended): the checksum fast path holds as stated — whenever
the current object's checksum annotation equals the fresh checksum of the
desired object, the apply step performs no write and leaves the object
untouched — and consequently a second consecutive apply of the same desired
object performs zero writes whenever the first apply found an existing
current object (so the first pass either skipped or wrote the checksum
annotation).  When the first apply had to create the object, the created
object carries no checksum annotation, so the idempotence consequence needs
one further pass. -/
theorem applyTemplateStep_checksum (hash : KObj → String)
    (strategyApply : KObj → KObj → KObj) (desired : KObj) :
    (∀ current : KObj,
      current.annots.lookup checksumOperatorKey = some (hash desired) →
      applyTemplateStep hash strategyApply desired (some current)
        = (ApplyAction.skipped, current))
    ∧ (∀ current : KObj,
      (applyTemplateStep hash strategyApply desired
          (some (applyTemplateStep hash strategyApply desired
            (some current)).2)).1
        = ApplyAction.skipped) := by
  constructor
  · intro current h
    simp [applyTemplateStep, h]
  · intro current
    by_cases h : current.annots.lookup checksumOperatorKey = some (hash desired)
    · simp [applyTemplateStep, h]
    · simp only [applyTemplateStep, if_neg h]
      have hset : (setAnnot (strategyApply current desired) checksumOperatorKey
          (hash desired)).annots.lookup checksumOperatorKey
            = some (hash desired) := by
        simp [setAnnot, List.lookup]
      simp [hset]

/-- Witness for the amended claim C4 at a concrete input: with a
payload-based checksum and an override strategy, an object whose stored
checksum annotation matches the desired checksum is skipped unchanged. -/
theorem applyTemplateStep_checksum_witness :
    applyTemplateStep (fun o => o.payload) (fun _ d => d) ⟨[], "x"⟩
        (some ⟨[(checksumOperatorKey, "x")], "y"⟩)
      = (ApplyAction.skipped, ⟨[(checksumOperatorKey, "x")], "y"⟩) :=
  (applyTemplateStep_checksum (fun o => o.payload) (fun _ d => d)
    ⟨[], "x"⟩).1 ⟨[(checksumOperatorKey, "x")], "y"⟩ (by simp [List.lookup, checksumOperatorKey])

/-- Counterexample to claim C4 as stated: starting from an empty store, the
first apply creates the object from the desired template, which carries no
checksum annotation; the second consecutive apply of the unchanged desired
object therefore misses the fast path and performs an Update — one object
write — contradicting "a second consecutive Apply with an unchanged config
performs zero object writes". -/
theorem applyTemplateStep_second_write_counterexample :
    (applyTemplateStep (fun o => o.payload) (fun _ d => d) ⟨[], "x"⟩
        (some (applyTemplateStep (fun o => o.payload) (fun _ d => d)
          ⟨[], "x"⟩ none).2)).1
      = ApplyAction.updatedObj := by
  rfl

/-- Filesystem storage variant: a Kubernetes VolumeSource, of which the
generator only inspects whether HostPath is set. -/
structure FilesystemStorage where
  hasHostPath : Bool
  volumeSourceRest : String
deriving DecidableEq, Repr

/-- Azure storage variant. -/
structure AzureStorage where
  accountName : String
  accountKey : String
  container : String
deriving DecidableEq, Repr

/-- GCS storage variant. -/
structure GCSStorage where
  bucket : String
deriving DecidableEq, Repr

/-- S3 storage variant. -/
structure S3Storage where
  accessKey : String
  secretKey : String
  bucket : String
  region : String
  regionEndpoint : String
  encrypt : Bool
deriving DecidableEq, Repr

/-- Swift storage variant. -/
structure SwiftStorage where
  authURL : String
  username : String
  password : String
  container : String
deriving DecidableEq, Repr

/-- The storage-backend union on the Config spec: each variant is an
optional pointer field. -/
structure StorageConfig where
  filesystem : Option FilesystemStorage
  azure : Option AzureStorage
  gcs : Option GCSStorage
  s3 : Option S3Storage
  swift : Option SwiftStorage
deriving DecidableEq, Repr

/-- The number of populated storage-backend variants. -/
def storageBackendsConfigured (s : StorageConfig) : Nat :=
  (if s.filesystem.isSome then 1 else 0)
    + (if s.azure.isSome then 1 else 0)
    + (if s.gcs.isSome then 1 else 0)
    + (if s.s3.isSome then 1 else 0)
    + (if s.swift.isSome then 1 else 0)

/-- The Config (OpenShiftDockerRegistry resource) fields the deployment
generator reads. -/
structure RegistryResource where
  name : String
  nspace : String
  storage : StorageConfig
  replicas : Int
  nodeSelector : List (String × String)
  imagePullSpec : String
deriving DecidableEq, Repr

/-- The operator's fixed parameters consumed by the generator. -/
structure Params where
  deploymentName : String
  deploymentNamespace : String
  deploymentLabels : List (String × String)
  containerName : String
  containerPort : Int
  healthzRoute : String
  healthzTimeoutSeconds : Int
deriving DecidableEq, Repr

/-- An environment variable with a literal value. -/
structure EnvVar where
  name : String
  value : String
deriving DecidableEq, Repr

/-- Errors `GenerateDeploymentConfig` can return. -/
inductive GenError where
  | hostPathNotSupported
  | storageBackendCount
  | securityContext (msg : String)
deriving DecidableEq, Repr

/-- The filesystem branch of `GenerateDeploymentConfig` (generate.go, lines
271-290): HostPath volume sources are rejected; otherwise the branch adds
the filesystem env vars, the registry-storage volume and mount, and bumps
the configured-backend count by one — without assigning a storage type.
Returns (env additions, volume names, mounts, count increment). -/
def fsBranch (s : StorageConfig) :
    Except GenError (List EnvVar × List String × List (String × String) × Nat) :=
  match s.filesystem with
  | none => Except.ok ([], [], [], 0)
  | some fs =>
    if fs.hasHostPath then Except.error GenError.hostPathNotSupported
    else Except.ok
      ([⟨"REGISTRY_STORAGE", "filesystem"⟩,
        ⟨"REGISTRY_STORAGE_FILESYSTEM_ROOTDIRECTORY", "/registry"⟩],
       ["registry-storage"], [("registry-storage", "/registry")], 1)

/-- The azure branch (generate.go, lines 292-301): sets the storage type and
env vars.  Returns (storage type assignment, env additions, count
increment). -/
def azureBranch (s : StorageConfig) : Option String × List EnvVar × Nat :=
  match s.azure with
  | none => (none, [], 0)
  | some a =>
    (some "azure",
     [⟨"REGISTRY_STORAGE", "azure"⟩,
      ⟨"REGISTRY_STORAGE_AZURE_ACCOUNTNAME", a.accountName⟩,
      ⟨"REGISTRY_STORAGE_AZURE_ACCOUNTKEY", a.accountKey⟩,
      ⟨"REGISTRY_STORAGE_AZURE_CONTAINER", a.container⟩], 1)

/-- The gcs branch (generate.go, lines 303-310). -/
def gcsBranch (s : StorageConfig) : Option String × List EnvVar × Nat :=
  match s.gcs with
  | none => (none, [], 0)
  | some g =>
    (some "gcs",
     [⟨"REGISTRY_STORAGE", "gcs"⟩,
      ⟨"REGISTRY_STORAGE_GCS_BUCKET", g.bucket⟩], 1)

/-- The s3 branch (generate.go, lines 312-324). -/
def s3Branch (s : StorageConfig) : Option String × List EnvVar × Nat :=
  match s.s3 with
  | none => (none, [], 0)
  | some v =>
    (some "s3",
     [⟨"REGISTRY_STORAGE", "s3"⟩,
      ⟨"REGISTRY_STORAGE_S3_ACCESSKEY", v.accessKey⟩,
      ⟨"REGISTRY_STORAGE_S3_SECRETKEY", v.secretKey⟩,
      ⟨"REGISTRY_STORAGE_S3_BUCKET", v.bucket⟩,
      ⟨"REGISTRY_STORAGE_S3_REGION", v.region⟩,
      ⟨"REGISTRY_STORAGE_S3_REGIONENDPOINT", v.regionEndpoint⟩,
      ⟨"REGISTRY_STORAGE_S3_ENCRYPT", if v.encrypt then "true" else "false"⟩], 1)

/-- The swift branch (generate.go, lines 326-336). -/
def swiftBranch (s : StorageConfig) : Option String × List EnvVar × Nat :=
  match s.swift with
  | none => (none, [], 0)
  | some w =>
    (some "swift",
     [⟨"REGISTRY_STORAGE", "swift"⟩,
      ⟨"REGISTRY_STORAGE_SWIFT_AUTHURL", w.authURL⟩,
      ⟨"REGISTRY_STORAGE_SWIFT_USERNAME", w.username⟩,
      ⟨"REGISTRY_STORAGE_SWIFT_PASSWORD", w.password⟩,
      ⟨"REGISTRY_STORAGE_SWIFT_CONTAINER", w.container⟩], 1)

/-- A pod security context (only the FSGroup survives into the model). -/
structure PodSecurityContextModel where
  fsGroup : Int
deriving DecidableEq, Repr

/-- The generated DeploymentConfig, restricted to the fields the claims
inspect plus the data threaded through the generator. -/
structure DeploymentConfigModel where
  name : String
  nspace : String
  labels : List (String × String)
  annots : List (String × String)
  replicas : Int
  env : List EnvVar
  volumes : List String
  mounts : List (String × String)
  securityContext : PodSecurityContextModel
deriving DecidableEq, Repr

/-- `GenerateDeploymentConfig` (generate.go, lines 253-409): accumulate the
storage branches in source order (filesystem, azure, gcs, s3, swift; the
storage type is overwritten by each cloud branch that fires, so the last
populated cloud variant wins), reject any configuration where the populated
count differs from one, then fetch the namespace's security context
(`generateSecurityContext` performs an `sdk.Get`; its outcome is the
`secCtx` argument) and assemble the deployment with the storage-type
annotation. -/
def GenerateDeploymentConfig (cr : RegistryResource) (p : Params)
    (secCtx : Except String PodSecurityContextModel) :
    Except GenError DeploymentConfigModel :=
  match fsBranch cr.storage with
  | Except.error e => Except.error e
  | Except.ok (fsEnv, fsVols, fsMounts, fsCount) =>
    let az := azureBranch cr.storage
    let gc := gcsBranch cr.storage
    let s3 := s3Branch cr.storage
    let sw := swiftBranch cr.storage
    let storageType :=
      sw.1.getD (s3.1.getD (gc.1.getD (az.1.getD "")))
    let storageConfigured :=
      fsCount + az.2.2 + gc.2.2 + s3.2.2 + sw.2.2
    if storageConfigured ≠ 1 then Except.error GenError.storageBackendCount
    else
      match secCtx with
      | Except.error m => Except.error (GenError.securityContext m)
      | Except.ok sc =>
        Except.ok
          { name := p.deploymentName
            nspace := p.deploymentNamespace
            labels := p.deploymentLabels
            annots := [(storageTypeOperatorKey, storageType)]
            replicas := cr.replicas
            env :=
              [⟨"REGISTRY_HTTP_ADDR", ":port"⟩,
               ⟨"REGISTRY_HTTP_NET", "tcp"⟩,
               ⟨"REGISTRY_STORAGE_CACHE_BLOBDESCRIPTOR", "inmemory"⟩,
               ⟨"REGISTRY_STORAGE_DELETE_ENABLED", "true"⟩,
               ⟨"REGISTRY_OPENSHIFT_QUOTA_ENABLED", "true"⟩]
                ++ fsEnv ++ az.2.1 ++ gc.2.1 ++ s3.2.1 ++ sw.2.1
            volumes := fsVols
            mounts := fsMounts
            securityContext := sc }

/-- Claim C2: if the number of populated storage-backend variants differs
from one, `GenerateDeploymentConfig` returns an error (so no deployment
object is produced); with exactly one populated variant the backend-count
check never fires, i.e. the result is never the backend-count error (though
other checks, such as the HostPath rejection or the security-context fetch,
may still fail). -/
theorem generateDeploymentConfig_backend_count (cr : RegistryResource)
    (p : Params) (secCtx : Except String PodSecurityContextModel) :
    (storageBackendsConfigured cr.storage ≠ 1 →
      ∃ e, GenerateDeploymentConfig cr p secCtx = Except.error e)
    ∧ (storageBackendsConfigured cr.storage = 1 →
      GenerateDeploymentConfig cr p secCtx
        ≠ Except.error GenError.storageBackendCount) := by
  obtain ⟨nm, ns, ⟨fs, az, gc, s3o, sw⟩, rep, sel, img⟩ := cr
  rcases fs with _ | ⟨hp, rest⟩ <;> try cases hp
  all_goals
    cases az <;> cases gc <;> cases s3o <;> cases sw <;> cases secCtx <;>
      refine ⟨fun hcount => ?_, fun hcount => ?_⟩ <;>
      simp_all [GenerateDeploymentConfig, fsBranch, azureBranch, gcsBranch,
        s3Branch, swiftBranch, storageBackendsConfigured]

/-- Witness for claim C2 at a concrete input: with zero populated storage
backends the generator fails, producing no deployment. -/
theorem generateDeploymentConfig_backend_count_witness :
    ∃ e, GenerateDeploymentConfig
        ⟨"image-registry", "openshift-image-registry",
         ⟨none, none, none, none, none⟩, 1, [], "img"⟩
        ⟨"image-registry", "openshift-image-registry", [], "registry",
         5000, "/healthz", 5⟩
        (Except.ok ⟨1000⟩)
      = Except.error e :=
  (generateDeploymentConfig_backend_count
    ⟨"image-registry", "openshift-image-registry",
     ⟨none, none, none, none, none⟩, 1, [], "img"⟩
    ⟨"image-registry", "openshift-image-registry", [], "registry",
     5000, "/healthz", 5⟩
    (Except.ok ⟨1000⟩)).1 (by decide)

/-- Claim C10: with the filesystem variant as the single configured backend
(and no HostPath), the generated deployment's storage-type annotation is the
empty string — the filesystem branch bumps the configured-backend count
without assigning a storage type — whereas each cloud variant as the single
backend sets the annotation to its backend name. -/
theorem generateDeploymentConfig_storage_type (p : Params)
    (sc : PodSecurityContextModel) (cr : RegistryResource) :
    (∀ fs : FilesystemStorage, fs.hasHostPath = false →
      cr.storage = ⟨some fs, none, none, none, none⟩ →
      ∃ d, GenerateDeploymentConfig cr p (Except.ok sc) = Except.ok d
        ∧ d.annots = [(storageTypeOperatorKey, "")])
    ∧ (∀ a, cr.storage = ⟨none, some a, none, none, none⟩ →
      ∃ d, GenerateDeploymentConfig cr p (Except.ok sc) = Except.ok d
        ∧ d.annots = [(storageTypeOperatorKey, "azure")])
    ∧ (∀ g, cr.storage = ⟨none, none, some g, none, none⟩ →
      ∃ d, GenerateDeploymentConfig cr p (Except.ok sc) = Except.ok d
        ∧ d.annots = [(storageTypeOperatorKey, "gcs")])
    ∧ (∀ v, cr.storage = ⟨none, none, none, some v, none⟩ →
      ∃ d, GenerateDeploymentConfig cr p (Except.ok sc) = Except.ok d
        ∧ d.annots = [(storageTypeOperatorKey, "s3")])
    ∧ (∀ w, cr.storage = ⟨none, none, none, none, some w⟩ →
      ∃ d, GenerateDeploymentConfig cr p (Except.ok sc) = Except.ok d
        ∧ d.annots = [(storageTypeOperatorKey, "swift")]) := by
  obtain ⟨nm, ns, st, rep, sel, img⟩ := cr
  refine ⟨?_, ?_, ?_, ?_, ?_⟩
  · intro fs hfs hst
    obtain ⟨hp, rest⟩ := fs
    simp only at hst
    subst hst
    simp only at hfs
    subst hfs
    exact ⟨_, rfl, rfl⟩
  · intro a hst
    simp only at hst
    subst hst
    exact ⟨_, rfl, rfl⟩
  · intro g hst
    simp only at hst
    subst hst
    exact ⟨_, rfl, rfl⟩
  · intro v hst
    simp only at hst
    subst hst
    exact ⟨_, rfl, rfl⟩
  · intro w hst
    simp only at hst
    subst hst
    exact ⟨_, rfl, rfl⟩

/-- Witness for claim C10 at concrete inputs: a filesystem-only Config gets
an empty storage-type annotation; an s3-only Config gets "s3". -/
theorem generateDeploymentConfig_storage_type_witness :
    (∃ d, GenerateDeploymentConfig
        ⟨"reg", "ns", ⟨some ⟨false, "emptyDir"⟩, none, none, none, none⟩,
         1, [], "img"⟩
        ⟨"image-registry", "ns", [], "registry", 5000, "/healthz", 5⟩
        (Except.ok ⟨77⟩)
      = Except.ok d ∧ d.annots = [(storageTypeOperatorKey, "")])
    ∧ (∃ d, GenerateDeploymentConfig
        ⟨"reg", "ns",
         ⟨none, none, none, some ⟨"ak", "sk", "b", "r", "", false⟩, none⟩,
         1, [], "img"⟩
        ⟨"image-registry", "ns", [], "registry", 5000, "/healthz", 5⟩
        (Except.ok ⟨77⟩)
      = Except.ok d ∧ d.annots = [(storageTypeOperatorKey, "s3")]) :=
  ⟨(generateDeploymentConfig_storage_type
      ⟨"image-registry", "ns", [], "registry", 5000, "/healthz", 5⟩ ⟨77⟩
      ⟨"reg", "ns", ⟨some ⟨false, "emptyDir"⟩, none, none, none, none⟩,
       1, [], "img"⟩).1 ⟨false, "emptyDir"⟩ rfl rfl,
   (generateDeploymentConfig_storage_type
      ⟨"image-registry", "ns", [], "registry", 5000, "/healthz", 5⟩ ⟨77⟩
      ⟨"reg", "ns",
       ⟨none, none, none, some ⟨"ak", "sk", "b", "r", "", false⟩, none⟩,
       1, [], "img"⟩).2.2.2.1 ⟨"ak", "sk", "b", "r", "", false⟩ rfl⟩

/-- One declared route in the Config spec
(imageregistryv1.ImageRegistryConfigRoute). -/
structure RouteSpecEntry where
  name : String
  hostname : String
  secretName : String
deriving DecidableEq, Repr

/-- The route-relevant part of the Config spec: the default-route toggle and
the declared route list. -/
structure ConfigRoutes where
  defaultRoute : Bool
  routes : List RouteSpecEntry
deriving DecidableEq, Repr

/-- imageregistryv1.DefaultRouteName (declared outside this source slice;
its concrete value is irrelevant to the claims, only that the default-route
mutator is named by it). -/
def DefaultRouteName : String := "default-route"

/-- The names produced by `Generator.listRoutes` (generator.go, lines
42-53): the default route's mutator when `Spec.DefaultRoute` is set,
followed by one mutator per declared route.  `removeObsoleteRoutes` reads
exactly these names (`gen.GetName()`) into its known-name set. -/
def listRouteNames (cr : ConfigRoutes) : List String :=
  (if cr.defaultRoute then [DefaultRouteName] else [])
    ++ cr.routes.map RouteSpecEntry.name

/-- A route currently present in the cluster, as the lister reports it;
`createdByOperator` is the marker `RouteIsCreatedByOperator` checks (the
predicate itself lives outside this source slice). -/
structure LiveRoute where
  name : String
  createdByOperator : Bool
deriving DecidableEq, Repr

/-- Kubernetes deletion propagation policies. -/
inductive PropagationPolicy where
  | foreground
  | background
  | orphan
deriving DecidableEq, Repr

/-- The delete options `removeObsoleteRoutes` passes to every deletion. -/
structure DeleteOpts where
  gracePeriodSeconds : Int
  propagation : PropagationPolicy
deriving DecidableEq, Repr

/-- `Generator.removeObsoleteRoutes` (generator.go, lines 138-175), as the
list of Delete calls the pass issues: every listed route that is not
operator-created is skipped, every route whose name is in the freshly
computed desired set is skipped, and each remaining route is deleted with a
zero-second grace period and foreground propagation. -/
def removeObsoleteRoutesOps (cr : ConfigRoutes) (routes : List LiveRoute) :
    List (String × DeleteOpts) :=
  let knownNames := listRouteNames cr
  routes.filterMap (fun r =>
    if r.createdByOperator = false then none
    else if r.name ∈ knownNames then none
    else some (r.name, ⟨0, PropagationPolicy.foreground⟩))

/-- Claim C6: one garbage-collection pass deletes exactly the listed routes
that are operator-created and whose names are absent from the freshly
computed desired set, each with foreground propagation and a zero-second
grace period; desired routes and routes not created by the operator are
never deleted. -/
theorem removeObsoleteRoutes_exact (cr : ConfigRoutes)
    (routes : List LiveRoute) (nm : String) (opts : DeleteOpts) :
    (nm, opts) ∈ removeObsoleteRoutesOps cr routes ↔
      ((∃ r ∈ routes, r.name = nm ∧ r.createdByOperator = true)
        ∧ nm ∉ listRouteNames cr
        ∧ opts = ⟨0, PropagationPolicy.foreground⟩) := by
  simp only [removeObsoleteRoutesOps, List.mem_filterMap]
  constructor
  · rintro ⟨r, hr, heq⟩
    cases hcv : r.createdByOperator
    · rw [hcv] at heq; simp at heq
    · rw [hcv] at heq
      by_cases hk : r.name ∈ listRouteNames cr
      · simp [hk] at heq
      · simp [hk] at heq
        refine ⟨⟨r, hr, heq.1, hcv⟩, ?_, heq.2.symm⟩
        rw [← heq.1]; exact hk
  · rintro ⟨⟨r, hr, hname, hc⟩, hk, hopts⟩
    refine ⟨r, hr, ?_⟩
    rw [hc, hname, hopts]
    simp [hk]

/-- Witness for claim C6 at the spec's example: owned routes a, b, c with
desired set {a, c} (no default route): exactly b is deleted, with zero grace
and foreground propagation. -/
theorem removeObsoleteRoutes_exact_witness :
    ("b", (⟨0, PropagationPolicy.foreground⟩ : DeleteOpts)) ∈
      removeObsoleteRoutesOps
        ⟨false, [⟨"a", "", ""⟩, ⟨"c", "", ""⟩]⟩
        [⟨"a", true⟩, ⟨"b", true⟩, ⟨"c", true⟩]
    ∧ ¬ ∃ opts, ("a", opts) ∈
      removeObsoleteRoutesOps
        ⟨false, [⟨"a", "", ""⟩, ⟨"c", "", ""⟩]⟩
        [⟨"a", true⟩, ⟨"b", true⟩, ⟨"c", true⟩] := by
  constructor
  · exact (removeObsoleteRoutes_exact
      ⟨false, [⟨"a", "", ""⟩, ⟨"c", "", ""⟩]⟩
      [⟨"a", true⟩, ⟨"b", true⟩, ⟨"c", true⟩] "b"
      ⟨0, PropagationPolicy.foreground⟩).mpr
      ⟨⟨⟨"b", true⟩, by simp, rfl, rfl⟩, by decide, rfl⟩
  · rintro ⟨opts, hmem⟩
    have h := (removeObsoleteRoutes_exact
      ⟨false, [⟨"a", "", ""⟩, ⟨"c", "", ""⟩]⟩
      [⟨"a", true⟩, ⟨"b", true⟩, ⟨"c", true⟩] "a" opts).mp hmem
    exact absurd h.2.1 (by decide)

/-- A statement of a Go function body, for modelling early returns: either
an observable effect or a `return` carrying the function result.  Statements
after a `return` never execute. -/
inductive GoStmt (ε : Type) (ρ : Type) where
  | effect (e : ε)
  | ret (v : ρ)

/-- Execute a Go body: statements run in order until the first `return`;
its value is the result and the effects performed before it are collected.
`dflt` is the result when no `return` is reached. -/
def runGoBody {ε ρ : Type} (dflt : ρ) : List (GoStmt ε ρ) → ρ × List ε
  | [] => (dflt, [])
  | GoStmt.ret v :: _ => (v, [])
  | GoStmt.effect e :: rest =>
    let r := runGoBody dflt rest
    (r.1, e :: r.2)

/-- An incoming sdk event (handler part): the object kind it carries and
whether it is a deletion. -/
structure EventModel where
  objKind : String
  deleted : Bool
deriving DecidableEq, Repr

/-- The observable steps of `Handler.Handle` past its first statement. -/
inductive HandleEffect where
  | logReceivedEvent
  | dispatchOnObjectType
  | updateRegistryStatus
deriving DecidableEq, Repr

/-- The body of `Handler.Handle` (handler part, lines 288-478) as a
statement list: the very first statement is `return nil`; the debug log, the
type-switch dispatch (reconcile/re-create/status sync per object kind) and
the final status update of the Config all sit after it. -/
def handleBody (ev : EventModel) : List (GoStmt HandleEffect (Option String)) :=
  [GoStmt.ret none,
   GoStmt.effect HandleEffect.logReceivedEvent,
   GoStmt.effect HandleEffect.dispatchOnObjectType,
   GoStmt.effect (if ev.deleted then HandleEffect.dispatchOnObjectType
     else HandleEffect.updateRegistryStatus)]

/-- `Handler.Handle`: run the body; a missing return would yield an error
result, which never happens here. -/
def handlerHandle (ev : EventModel) : Option String × List HandleEffect :=
  runGoBody (some "missing return") (handleBody ev)

/-- The constructed Handler value (handler part, lines 45-63): the fixed
parameter block `NewHandler` fills in. -/
structure HandlerModel where
  deploymentNamespace : String
  deploymentLabels : List (String × String)
  podServiceAccount : String
  containerPort : Int
  healthzRoute : String
  healthzTimeoutSeconds : Int
  serviceName : String
  imageConfigName : String
deriving DecidableEq, Repr

/-- The observable steps of `NewHandler`. -/
inductive NewHandlerEffect where
  | getWatchNamespace
  | getOperatorName
  | bootstrap
  | createClusterOperatorStatus
deriving DecidableEq, Repr

/-- The handler `NewHandler` constructs for a namespace (handler part,
lines 45-63). -/
def handlerFor (ns : String) : HandlerModel :=
  { deploymentNamespace := ns
    deploymentLabels := [("docker-registry", "default")]
    podServiceAccount := "registry"
    containerPort := 5000
    healthzRoute := "/healthz"
    healthzTimeoutSeconds := 5
    serviceName := "image-registry"
    imageConfigName := "cluster" }

/-- The body of `NewHandler` (handler part, lines 34-77) as a statement
list: after the two environment lookups the constructed handler is returned
at line 65; the `Bootstrap` call and the cluster-operator status `Create`
call sit after that return. -/
def newHandlerBody (ns : String) :
    List (GoStmt NewHandlerEffect (Option HandlerModel)) :=
  [GoStmt.effect NewHandlerEffect.getWatchNamespace,
   GoStmt.effect NewHandlerEffect.getOperatorName,
   GoStmt.ret (some (handlerFor ns)),
   GoStmt.effect NewHandlerEffect.bootstrap,
   GoStmt.effect NewHandlerEffect.createClusterOperatorStatus,
   GoStmt.ret (some (handlerFor ns))]

/-- `NewHandler`: run its body. -/
def newHandler (ns : String) : Option HandlerModel × List NewHandlerEffect :=
  runGoBody none (newHandlerBody ns)

/-- Claim C8: for every event, `Handle` returns nil immediately — none of
the dispatch, reconcile or status-update steps after the first statement
execute — and for every namespace `NewHandler` returns the constructed
handler right after the two environment lookups, before the `Bootstrap` and
cluster-operator-status `Create` steps, which therefore never run. -/
theorem handle_early_return (ev : EventModel) (ns : String) :
    handlerHandle ev = (none, [])
    ∧ newHandler ns
      = (some (handlerFor ns),
         [NewHandlerEffect.getWatchNamespace, NewHandlerEffect.getOperatorName])
    ∧ NewHandlerEffect.bootstrap ∉ (newHandler ns).2
    ∧ NewHandlerEffect.createClusterOperatorStatus ∉ (newHandler ns).2 := by
  refine ⟨rfl, rfl, ?_, ?_⟩
  · intro h
    simp [newHandler, newHandlerBody, runGoBody] at h
  · intro h
    simp [newHandler, newHandlerBody, runGoBody] at h

/-- The possible results of a mutator's `Get` during `Generator.Apply`. -/
inductive GetResult (α : Type) where
  | found (o : α)
  | notFound
  | apiError (e : String)

/-- The step status `Generator.Apply` reaches for one mutator. -/
inductive MutatorStepOutcome where
  | createdNew
  | updatedExisting (changed : Bool)
deriving DecidableEq, Repr

/-- The per-mutator body of `Generator.Apply` (generator.go, lines
192-229): `Get` the current object; a not-found result triggers `Create` of
the desired object (success there is success of the step); any other `Get`
error aborts the step with a failed-to-get error; a found object is deep
copied and handed to `Update`.  `create` and `update` record what those
calls would return. -/
def applyMutatorStep {α : Type} (get : GetResult α)
    (create : Except String α) (update : α → Except String (α × Bool)) :
    Except String MutatorStepOutcome :=
  match get with
  | GetResult.apiError e => Except.error ("failed to get object: " ++ e)
  | GetResult.notFound =>
    match create with
    | Except.error e => Except.error ("failed to create object: " ++ e)
    | Except.ok _ => Except.ok MutatorStepOutcome.createdNew
  | GetResult.found o =>
    match update o with
    | Except.error e => Except.error ("failed to update object: " ++ e)
    | Except.ok r => Except.ok (MutatorStepOutcome.updatedExisting r.2)

/-- Claim C9: a not-found result from `Get` followed by a successful
`Create` yields a successful step — not-found is never an error to the
caller — while any other `Get` error aborts the step with an error. -/
theorem applyMutatorStep_notFound_creates {α : Type}
    (create : Except String α) (update : α → Except String (α × Bool)) :
    (∀ n, create = Except.ok n →
      applyMutatorStep GetResult.notFound create update
        = Except.ok MutatorStepOutcome.createdNew)
    ∧ (∀ e, ∃ m, applyMutatorStep (GetResult.apiError e) create update
        = Except.error m) := by
  constructor
  · intro n hc
    simp [applyMutatorStep, hc]
  · intro e
    exact ⟨"failed to get object: " ++ e, rfl⟩

/-- Witness for claim C9 at a concrete input: a not-found `Get` with a
succeeding `Create` gives a successful step. -/
theorem applyMutatorStep_notFound_creates_witness :
    applyMutatorStep GetResult.notFound (Except.ok "obj")
        (fun o => Except.ok (o, false))
      = Except.ok MutatorStepOutcome.createdNew :=
  (applyMutatorStep_notFound_creates (Except.ok "obj")
    (fun o => Except.ok (o, false))).1 "obj" rfl
